import Mathlib

/-!
Verification of the planetutils planet-management module
(src/planetutils/planet.py) against its natural-language specification.

The Python module is shallowly embedded below.  External effects are made
explicit:

* `exec : List String → Option String` models `subprocess.check_output`:
  `some out` is the captured stdout of a successful run, `none` is a
  non-zero exit (which `check_output` turns into `CalledProcessError`).
* `http : String → Option String` models `urlopen(url).read()`.
* The local filesystem is a pair of association lists (`FS`), tracking only
  what the Python code itself reads and writes; files written by the
  external tools are opaque and not tracked.
* Every external invocation is recorded as an `Event`, in order.

Python `str` is embedded as Lean `String`; the Python string methods used
by the module (`split`, `strip`, `startswith`, `in`, `partition`) are
re-implemented structurally below so that they compute in the kernel.
Python floats are embedded as `ℚ`; the textual formatting of numbers
(`'%0.5f' % x`, `'%s' % x`) is abstracted as an explicit formatting
parameter `fmt : ℚ → String`, since no claim depends on the digits chosen.
-/

namespace Planetutils

/-! ### Python string primitives -/

/-- The characters Python's `str.strip()` removes. -/
def isPySpace (c : Char) : Bool :=
  c == ' ' || c == '\t' || c == '\n' || c == '\r' || c == '\x0b' || c == '\x0c'

/-- Python `s.strip()`: drop whitespace from both ends. -/
def pyStrip (s : String) : String :=
  ⟨List.rdropWhile isPySpace (List.dropWhile isPySpace s.toList)⟩

/-- Split a character list on a separator character, keeping empty groups,
as Python `s.split(sep)` does for a one-character separator. -/
def splitChar (sep : Char) : List Char → List (List Char)
  | [] => [[]]
  | c :: rest =>
    if c == sep then [] :: splitChar sep rest
    else
      match splitChar sep rest with
      | [] => [[c]]
      | g :: gs => (c :: g) :: gs

/-- Python `s.split('\n')`. -/
def pyLines (s : String) : List String :=
  (splitChar '\n' s.toList).map (fun l => ⟨l⟩)

/-- Python `s.startswith(pre)`. -/
def pyStartsWith (s pre : String) : Bool :=
  List.isPrefixOf pre.toList s.toList

/-- Python `needle in hay` (substring containment). -/
def pyContains (hay needle : String) : Bool :=
  hay.toList.tails.any (fun t => List.isPrefixOf needle.toList t)

/-- Everything after the first occurrence of `sep`, or `[]` when absent. -/
def afterChar (sep : Char) : List Char → List Char
  | [] => []
  | c :: rest => if c == sep then rest else afterChar sep rest

/-- Python `s.partition(':')[2]`: the substring after the first colon,
or the empty string when there is no colon. -/
def afterFirstColon (s : String) : String :=
  ⟨afterChar ':' s.toList⟩

/-- `os.path.join` for the slash-free relative names this module joins. -/
def pyJoin (a b : String) : String := a ++ "/" ++ b

/-- Python strict lexicographic comparison of character lists
(code-point order), as used by `str.__lt__`. -/
def lexLt : List Char → List Char → Bool
  | [], [] => false
  | [], _ :: _ => true
  | _ :: _, [] => false
  | a :: as, b :: bs => if a < b then true else if b < a then false else lexLt as bs

/-- Python `a <= b` on strings. -/
def pyStrLe (a b : String) : Bool := !(lexLt b.toList a.toList)

/-! ### Errors, events and the filesystem -/

/-- The ways the embedded code can raise: explicit `raise Exception(msg)`,
`subprocess.CalledProcessError` from `check_output`, `IndexError` from
indexing an empty list, a failed `urlopen`, and the `InvalidBoundingBox`
raised by the (external) bbox validation routine. -/
inductive Err where
  | exceptionMsg (msg : String)
  | calledProcessError (args : List String)
  | indexError
  | urlError (url : String)
  | invalidBbox
  deriving DecidableEq, Repr

/-- One observable external interaction: a subprocess invocation (with its
full argument vector), an HTTP GET via `urlopen`, or an object-store
download via the boto3 client. -/
inductive Event where
  | run (args : List String)
  | httpGet (url : String)
  | s3download (bucket key : String)
  deriving DecidableEq, Repr

/-- A little filesystem: files with contents, plus a set of directories. -/
structure FS where
  files : List (String × String)
  dirs : List String
  deriving DecidableEq, Repr

def FS.readFile (fs : FS) (p : String) : Option String := fs.files.lookup p

def FS.fileExists (fs : FS) (p : String) : Bool := (fs.readFile p).isSome

def FS.isDir (fs : FS) (p : String) : Bool := fs.dirs.contains p

/-- `os.path.exists`. -/
def FS.pathExists (fs : FS) (p : String) : Bool := fs.fileExists p || fs.isDir p

def FS.writeFile (fs : FS) (p body : String) : FS := ⟨(p, body) :: fs.files, fs.dirs⟩

/-- `os.unlink`. -/
def FS.removeFile (fs : FS) (p : String) : FS :=
  ⟨fs.files.filter (fun kv => kv.1 != p), fs.dirs⟩

/-- `os.makedirs` wrapped in the module's `try/except OSError: pass`:
creating an already-existing path is tolerated. -/
def FS.makedirs (fs : FS) (p : String) : FS :=
  if fs.pathExists p then fs else ⟨fs.files, p :: fs.dirs⟩

/-! ### PlanetBase.get_timestamp -/

/-- `osmconvert <path> --out-timestamp`. -/
def timestampCmd (osmpath : String) : List String :=
  ["osmconvert", osmpath, "--out-timestamp"]

/-- `osmconvert <path> --out-statistics`. -/
def statisticsCmd (osmpath : String) : List String :=
  ["osmconvert", osmpath, "--out-statistics"]

/-- `PlanetBase.get_timestamp`: ask osmconvert for the direct timestamp;
if the output contains `"invalid"`, fall back to `--out-statistics` and
take the first line starting with `"timestamp max"`, keeping the stripped
text after its first colon.  Returns the events issued and the result. -/
def get_timestamp (exec : List String → Option String) (osmpath : String) :
    List Event × Except Err String :=
  let cmd1 := timestampCmd osmpath
  match exec cmd1 with
  | none => ([Event.run cmd1], Except.error (Err.calledProcessError cmd1))
  | some timestamp =>
    if pyContains timestamp "invalid" then
      let cmd2 := statisticsCmd osmpath
      match exec cmd2 with
      | none => ([Event.run cmd1, Event.run cmd2], Except.error (Err.calledProcessError cmd2))
      | some statistics =>
        match ((pyLines statistics).filter (fun i => pyStartsWith i "timestamp max")).map
            (fun i => pyStrip (afterFirstColon i)) with
        | [] => ([Event.run cmd1, Event.run cmd2], Except.error Err.indexError)
        | t :: _ => ([Event.run cmd1, Event.run cmd2], Except.ok (pyStrip t))
    else ([Event.run cmd1], Except.ok (pyStrip timestamp))

/-- The lines of a text, each stripped, with blank lines dropped — the
reading of "the body consists of these lines" that survives the
indentation of a Python triple-quoted literal. -/
def trimmedNonBlankLines (s : String) : List String :=
  ((pyLines s).map pyStrip).filter (fun l => l != "")

/-! ### PlanetUpdaterOsmosis -/

/-- The default changeset url, `'https://planet.openstreetmap.org/replication/%s' % grain`. -/
def default_changeset_url (grain : String) : String :=
  "https://planet.openstreetmap.org/replication/" ++ grain

/-- `osmosis --read-replication-interval-init workingDirectory=<workdir>`. -/
def initCmd (workdir : String) : List String :=
  ["osmosis", "--read-replication-interval-init", "workingDirectory=" ++ workdir]

/-- The exact text `PlanetUpdaterOsmosis._initialize` writes into
`configuration.txt`: a Python triple-quoted literal, so it starts with a
newline, indents both payload lines with 16 spaces, and ends with a line
of 12 spaces. -/
def configurationBody (changeset_url : String) : String :=
  "\n                baseUrl=" ++ changeset_url ++ "\n                maxInterval=0\n            "

/-- `PlanetUpdaterOsmosis._initialize`: bootstrap the osmosis workdir.
A present `configuration.txt` short-circuits; a workdir that exists but is
not a directory raises; otherwise the directory is created, the
replication-interval initializer is invoked and the configuration file is
written. -/
def bootstrapWorkdir (exec : List String → Option String) (workdir changeset_url : String)
    (fs : FS) : List Event × Except Err FS :=
  let configpath := pyJoin workdir "configuration.txt"
  if fs.pathExists configpath then ([], Except.ok fs)
  else if fs.pathExists workdir && !(fs.isDir workdir) then
    ([], Except.error (Err.exceptionMsg ("workdir exists and is not a directory: " ++ workdir)))
  else
    let fs1 := fs.makedirs workdir
    match exec (initCmd workdir) with
    | none => ([Event.run (initCmd workdir)], Except.error (Err.calledProcessError (initCmd workdir)))
    | some _ =>
      ([Event.run (initCmd workdir)],
        Except.ok (fs1.writeFile configpath (configurationBody changeset_url)))

/-- The sequence-lookup url `'https://replicate-sequences.osm.mazdermind.de/?%s' % timestamp`. -/
def sequenceUrl (timestamp : String) : String :=
  "https://replicate-sequences.osm.mazdermind.de/?" ++ timestamp

/-- `PlanetUpdaterOsmosis._initialize_state`: if `state.txt` is absent,
resolve the snapshot timestamp, query the sequence-lookup service and
persist the response verbatim as `state.txt`. -/
def bootstrapState (exec : List String → Option String) (http : String → Option String)
    (osmpath workdir : String) (fs : FS) : List Event × Except Err FS :=
  let statepath := pyJoin workdir "state.txt"
  if fs.pathExists statepath then ([], Except.ok fs)
  else
    match get_timestamp exec osmpath with
    | (evs, Except.error e) => (evs, Except.error e)
    | (evs, Except.ok timestamp) =>
      let url := sequenceUrl timestamp
      match http url with
      | none => (evs ++ [Event.httpGet url], Except.error (Err.urlError url))
      | some state => (evs ++ [Event.httpGet url], Except.ok (fs.writeFile statepath state))

/-- The changeset scratch path `<workdir>/changeset.osm.gz`. -/
def changesetPath (workdir : String) : String := pyJoin workdir "changeset.osm.gz"

/-- The argument vector of `PlanetUpdaterOsmosis._get_changeset`. -/
def getChangesetCmd (workdir : String) : List String :=
  ["osmosis", "--read-replication-interval", "workingDirectory=" ++ workdir,
   "--simplify-change", "--write-xml-change", changesetPath workdir]

/-- The argument vector of `PlanetUpdaterOsmosis._apply_changeset`. -/
def applyChangesetCmd (workdir osmpath outpath : String) : List String :=
  ["osmosis", "--read-xml-change", changesetPath workdir, "--read-pbf", osmpath,
   "--apply-change", "--write-pbf", outpath]

/-- `PlanetUpdaterOsmosis.update_planet`: require the snapshot to exist,
derive the changeset url from the grain when none is given, then run the
four phases in order, propagating the first failure. -/
def update_planet (exec : List String → Option String) (http : String → Option String)
    (osmpath workdir outpath grain : String) (changeset_url : Option String) (fs : FS) :
    List Event × Except Err FS :=
  if !(fs.pathExists osmpath) then
    ([], Except.error (Err.exceptionMsg ("planet file does not exist: " ++ osmpath)))
  else
    let curl := changeset_url.getD (default_changeset_url grain)
    match bootstrapWorkdir exec workdir curl fs with
    | (e1, Except.error er) => (e1, Except.error er)
    | (e1, Except.ok fs1) =>
      match bootstrapState exec http osmpath workdir fs1 with
      | (e2, Except.error er) => (e1 ++ e2, Except.error er)
      | (e2, Except.ok fs2) =>
        match exec (getChangesetCmd workdir) with
        | none =>
          (e1 ++ e2 ++ [Event.run (getChangesetCmd workdir)],
            Except.error (Err.calledProcessError (getChangesetCmd workdir)))
        | some _ =>
          match exec (applyChangesetCmd workdir osmpath outpath) with
          | none =>
            (e1 ++ e2 ++ [Event.run (getChangesetCmd workdir),
              Event.run (applyChangesetCmd workdir osmpath outpath)],
              Except.error (Err.calledProcessError (applyChangesetCmd workdir osmpath outpath)))
          | some _ =>
            (e1 ++ e2 ++ [Event.run (getChangesetCmd workdir),
              Event.run (applyChangesetCmd workdir osmpath outpath)],
              Except.ok fs2)

/-! ### Downloaders -/

/-- The curl invocation of `PlanetDownloaderHttp._download`. -/
def curlCmd (url outpath : String) : List String :=
  ["curl", "-L", "-o", outpath, url]

/-- `PlanetDownloaderHttp.download_planet`: refuse to overwrite an existing
snapshot, then fetch the url (defaulting to the well-known latest-planet
url) with curl.  The downloaded file itself is written by curl, an
external tool, so the returned filesystem is unchanged. -/
def download_planet_http (exec : List String → Option String) (osmpath : String)
    (url : Option String) (fs : FS) : List Event × Except Err Unit :=
  if fs.pathExists osmpath then
    ([], Except.error (Err.exceptionMsg ("planet file exists: " ++ osmpath)))
  else
    let u := url.getD "https://planet.openstreetmap.org/pbf/planet-latest.osm.pbf"
    let cmd := curlCmd u osmpath
    match exec cmd with
    | none => ([Event.run cmd], Except.error (Err.calledProcessError cmd))
    | some _ => ([Event.run cmd], Except.ok ())

/-- Python `sorted` on strings: a stable comparison sort in ascending
lexicographic order, embedded as an insertion sort over `pyStrLe`. -/
def insortS (x : String) : List String → List String
  | [] => [x]
  | y :: ys => if pyStrLe x y then x :: y :: ys else y :: insortS x ys

/-- Python `sorted(objs, key=lambda x: x.key)`, applied to the keys. -/
def pySorted : List String → List String
  | [] => []
  | x :: xs => insortS x (pySorted xs)

/-- `PlanetDownloaderS3.download_planet_latest` (together with its helpers
`_get_planets` and `_download`).  The object-store listing is the external
collaborator: `keys` is the list of object keys returned under the
requested prefix, in listing order, and `matchP` is the compiled regular
expression filter `r.match` (the `re` module is external).  `boto3Present`
models whether the optional `boto3` import succeeded. -/
def download_planet_latest (boto3Present : Bool) (matchP : String → Bool)
    (keys : List String) (bucket : Option String) (osmpath : String) (fs : FS) :
    List Event × Except Err Unit :=
  if fs.pathExists osmpath then
    ([], Except.error (Err.exceptionMsg ("planet file exists: " ++ osmpath)))
  else
    let bucketName := bucket.getD "osm-pds"
    if !boto3Present then ([], Except.error (Err.exceptionMsg "please install boto3"))
    else
      let objs := keys.filter matchP
      let objsSorted := pySorted objs
      match objsSorted.getLast? with
      | none => ([], Except.error Err.indexError)
      | some planet => ([Event.s3download bucketName planet], Except.ok ())

/-! ### Extractors -/

/-- A rectangle bounding box `(left, bottom, right, top)`, coordinates as
exact rationals standing in for Python floats. -/
structure Bbox where
  left : ℚ
  bottom : ℚ
  right : ℚ
  top : ℚ
  deriving DecidableEq, Repr

/-- Modelled from the spec: `validate_bbox` lives in `bbox.py`, which is
not part of the sources under review; §4.2 states it "raises
`InvalidBoundingBox` if left≥right, bottom≥top, or any coordinate is
outside valid longitude/latitude range".  It is `true` exactly when none
of those conditions holds. -/
def validate_bbox (b : Bbox) : Bool :=
  (-180 ≤ b.left && b.left < b.right && b.right ≤ 180) &&
  (-90 ≤ b.bottom && b.bottom < b.top && b.top ≤ 90)

/-- The callable stored in the `command` slot of a `PlanetBase` instance.
Initially it is the bound method (which spawns a subprocess); after
`extract_commands` runs, the slot holds the recording lambda
`lambda x: args.append(x)` for the rest of the instance's lifetime. -/
structure CommandSlot where
  recording : Bool
  recorded : List (List String)
  deriving DecidableEq, Repr

/-- One call through the `command` slot: the recording lambda appends the
argument vector and spawns nothing; the real method spawns a subprocess
and raises `CalledProcessError` on a non-zero exit. -/
def commandStep (exec : List String → Option String) (st : CommandSlot)
    (args : List String) : CommandSlot × List Event × Except Err Unit :=
  if st.recording then ((CommandSlot.mk st.recording (st.recorded ++ [args])), [], Except.ok ())
  else
    match exec args with
    | some _ => (st, [Event.run args], Except.ok ())
    | none => (st, [Event.run args], Except.error (Err.calledProcessError args))

/-- The argument vector of `PlanetExtractorOsmconvert.extract_bbox`.
`fmt` abstracts the `'%s' % float` rendering. -/
def osmconvertBboxCmd (fmt : ℚ → String) (osmpath outpath name : String) (b : Bbox) :
    List String :=
  ["osmconvert", osmpath,
   "-b=" ++ fmt b.left ++ "," ++ fmt b.bottom ++ "," ++ fmt b.right ++ "," ++ fmt b.top,
   "-o=" ++ pyJoin outpath (name ++ ".osm.pbf")]

/-- `PlanetExtractorOsmconvert.extract_bboxes`: one validation plus one
osmconvert invocation per region, in order, through the `command` slot.
`check_output` raises on the first failing invocation, aborting the loop. -/
def extract_bboxes_osmconvert (exec : List String → Option String) (fmt : ℚ → String)
    (osmpath outpath : String) :
    List (String × Bbox) → CommandSlot → CommandSlot × List Event × Except Err Unit
  | [], st => (st, [], Except.ok ())
  | (name, b) :: rest, st =>
    if validate_bbox b then
      match commandStep exec st (osmconvertBboxCmd fmt osmpath outpath name b) with
      | (st1, evs1, Except.error e) => (st1, evs1, Except.error e)
      | (st1, evs1, Except.ok _) =>
        match extract_bboxes_osmconvert exec fmt osmpath outpath rest st1 with
        | (st2, evs2, r2) => (st2, evs1 ++ evs2, r2)
    else (st, [], Except.error Err.invalidBbox)

/-- `PlanetExtractor.extract_commands` specialised to the osmconvert
variant: install a fresh recording lambda in the `command` slot, run the
extraction, and return the recorded argument vectors.  The slot is left
holding the recorder. -/
def extract_commands_osmconvert (exec : List String → Option String) (fmt : ℚ → String)
    (osmpath outpath : String) (bboxes : List (String × Bbox)) (_st : CommandSlot) :
    CommandSlot × List Event × Except Err (List (List String)) :=
  match extract_bboxes_osmconvert exec fmt osmpath outpath bboxes ⟨true, []⟩ with
  | (st2, evs, Except.ok _) => (st2, evs, Except.ok st2.recorded)
  | (st2, evs, Except.error e) => (st2, evs, Except.error e)

/-- The per-region argument block of `PlanetExtractorOsmosis.extract_bboxes`,
validating each bbox while the vector is being built.  `fmt` abstracts the
`'%0.5f' % float` rendering. -/
def osmosisBboxArgs (fmt : ℚ → String) (outpath : String) :
    List (String × Bbox) → Except Err (List String)
  | [] => Except.ok []
  | (name, b) :: rest =>
    if validate_bbox b then
      match osmosisBboxArgs fmt outpath rest with
      | Except.error e => Except.error e
      | Except.ok tailArgs =>
        Except.ok (["--bounding-box",
          "left=" ++ fmt b.left, "bottom=" ++ fmt b.bottom,
          "right=" ++ fmt b.right, "top=" ++ fmt b.top,
          "--write-pbf", pyJoin outpath (name ++ ".osm.pbf")] ++ tailArgs)
    else Except.error Err.invalidBbox

/-- `PlanetExtractorOsmosis.extract_bboxes`: build the single tee argument
vector (validating every bbox along the way), then invoke osmosis once
through the `command` slot. -/
def extract_bboxes_osmosis (exec : List String → Option String) (fmt : ℚ → String)
    (osmpath outpath : String) (workers : Nat) (bboxes : List (String × Bbox))
    (st : CommandSlot) : CommandSlot × List Event × Except Err Unit :=
  match osmosisBboxArgs fmt outpath bboxes with
  | Except.error e => (st, [], Except.error e)
  | Except.ok bargs =>
    commandStep exec st
      (["osmosis", "--read-pbf-fast", osmpath, "workers=" ++ toString workers,
        "--tee", toString bboxes.length] ++ bargs)

/-- The geometry of one named extraction region, as consumed by
`PlanetExtractorOsmium.extract_bboxes` (`bbox.geometry.get('type')`).
The bounding envelope that `bbox.bbox()` computes for a `LineString`
lives in the external `bbox.py`, so the constructor carries it as data. -/
inductive Geometry where
  | lineString (envelope : Bbox)
  | polygon (coords : List (List (ℚ × ℚ)))
  | multiPolygon (coords : List (List (List (ℚ × ℚ))))
  | other (gt : String)
  deriving DecidableEq, Repr

/-- One entry of the osmium extraction manifest. -/
inductive ManifestGeom where
  | bboxG (left right top bottom : ℚ)
  | polygonG (coords : List (List (ℚ × ℚ)))
  | multiPolygonG (coords : List (List (List (ℚ × ℚ))))
  deriving DecidableEq, Repr

/-- One element of the `extracts` list built by
`PlanetExtractorOsmium.extract_bboxes`. -/
structure ManifestExtract where
  output : String
  output_format : String
  geom : ManifestGeom
  deriving DecidableEq, Repr

/-- The geometry-kind dispatch inside the region loop of
`PlanetExtractorOsmium.extract_bboxes` (`bbox.geometry.get('type')`),
with an unknown geometry type a hard error. -/
def manifestGeomOf : Geometry → Except Err ManifestGeom
  | Geometry.lineString env =>
    Except.ok (ManifestGeom.bboxG env.left env.right env.top env.bottom)
  | Geometry.polygon c => Except.ok (ManifestGeom.polygonG c)
  | Geometry.multiPolygon c => Except.ok (ManifestGeom.multiPolygonG c)
  | Geometry.other _ => Except.error (Err.exceptionMsg "unknown geometry type for extract")

/-- The region loop of `PlanetExtractorOsmium.extract_bboxes`: one
manifest entry per region, with an unknown geometry type a hard error
raised before any file or process side effect. -/
def buildExtracts : List (String × Geometry) → Except Err (List ManifestExtract)
  | [] => Except.ok []
  | (name, g) :: rest =>
    match manifestGeomOf g with
    | Except.error e => Except.error e
    | Except.ok mg =>
      match buildExtracts rest with
      | Except.error e => Except.error e
      | Except.ok tailExtracts =>
        Except.ok (ManifestExtract.mk (name ++ ".osm.pbf") "pbf" mg :: tailExtracts)

/-- Rendering of one coordinate pair by `json.dump` (float digits
abstracted through `toString ℚ`). -/
def renderPoint (p : ℚ × ℚ) : String :=
  "[" ++ toString p.1 ++ ", " ++ toString p.2 ++ "]"

def renderList (f : α → String) (l : List α) : String :=
  "[" ++ String.intercalate ", " (l.map f) ++ "]"

def renderManifestGeom : ManifestGeom → String
  | ManifestGeom.bboxG left right top bottom =>
    "\"bbox\": \x7b\"left\": " ++ toString left ++ ", \"right\": " ++ toString right ++
      ", \"top\": " ++ toString top ++ ", \"bottom\": " ++ toString bottom ++ "\x7d"
  | ManifestGeom.polygonG c => "\"polygon\": " ++ renderList (renderList renderPoint) c
  | ManifestGeom.multiPolygonG c =>
    "\"multipolygon\": " ++ renderList (renderList (renderList renderPoint)) c

def renderExtract (e : ManifestExtract) : String :=
  "\x7b\"output\": \"" ++ e.output ++ "\", \"output_format\": \"" ++ e.output_format ++
    "\", " ++ renderManifestGeom e.geom ++ "\x7d"

/-- The serialized manifest `{'directory': outpath, 'extracts': extracts}`. -/
def renderManifest (outpath : String) (extracts : List ManifestExtract) : String :=
  "\x7b\"directory\": \"" ++ outpath ++ "\", \"extracts\": " ++
    renderList renderExtract extracts ++ "\x7d"

/-- `PlanetExtractorOsmium.extract_bboxes`: build the manifest, write it to
a `NamedTemporaryFile` created with `delete=False` (its fresh path is the
`tmpPath` argument), invoke osmium once, and `os.unlink` the manifest.
The unlink statement runs only after a successful invocation, since
`check_output` raises on a non-zero exit and there is no `finally`. -/
def extract_bboxes_osmium (exec : List String → Option String)
    (tmpPath osmpath outpath strategy : String) (bboxes : List (String × Geometry))
    (fs : FS) : FS × List Event × Except Err Unit :=
  match buildExtracts bboxes with
  | Except.error e => (fs, [], Except.error e)
  | Except.ok extracts =>
    let fs1 := fs.writeFile tmpPath (renderManifest outpath extracts)
    let cmd := ["osmium", "extract", "-s", strategy, "-c", tmpPath, osmpath]
    match exec cmd with
    | none => (fs1, [Event.run cmd], Except.error (Err.calledProcessError cmd))
    | some _ => (fs1.removeFile tmpPath, [Event.run cmd], Except.ok ())

/-! ### Helper lemmas -/

theorem toList_mk (l : List Char) : (String.mk l).toList = l := rfl

theorem dropWhile_rdropWhile_dropWhile (p : Char → Bool) (l : List Char) :
    List.dropWhile p (List.rdropWhile p (List.dropWhile p l)) =
      List.rdropWhile p (List.dropWhile p l) := by
  set A := List.dropWhile p l with hA
  obtain ⟨t, ht⟩ := @List.dropWhile_suffix _ A.reverse p
  have hdecomp : A = List.rdropWhile p A ++ t.reverse := by
    have h1 : A.reverse.reverse = (t ++ List.dropWhile p A.reverse).reverse := by rw [ht]
    simpa [List.rdropWhile] using h1
  cases hr : List.rdropWhile p A with
  | nil => simp [hr]
  | cons c r' =>
    have hAne : A ≠ [] := by
      rw [hdecomp, hr]; simp
    have hhead : p (A.head hAne) = false := by
      have := List.head_dropWhile_not p l (by rw [← hA]; exact hAne)
      simpa [← hA] using this
    have hc : A.head hAne = c := by
      have h2 : A = c :: (r' ++ t.reverse) := by rw [hdecomp, hr]; simp
      simp [h2]
    rw [List.dropWhile_cons]
    rw [hc] at hhead
    simp [hhead]

theorem pyStrip_idem (s : String) : pyStrip (pyStrip s) = pyStrip s := by
  unfold pyStrip
  rw [toList_mk, dropWhile_rdropWhile_dropWhile, List.rdropWhile_idempotent]

theorem lexLt_iff : ∀ (as bs : List Char), lexLt as bs = true ↔ List.Lex (· < ·) as bs
  | [], [] => by
    simp only [lexLt]
    exact iff_of_false (by simp) (List.Lex.not_nil_right _ _)
  | [], _ :: _ => by
    simp only [lexLt]
    exact iff_of_true trivial List.Lex.nil
  | _ :: _, [] => by
    simp only [lexLt]
    exact iff_of_false (by simp) (List.Lex.not_nil_right _ _)
  | a :: as, b :: bs => by
    simp only [lexLt]
    by_cases hab : a < b
    · simp only [if_pos hab]
      exact iff_of_true trivial (List.Lex.rel hab)
    · simp only [if_neg hab]
      by_cases hba : b < a
      · simp only [if_pos hba]
        constructor
        · intro h; cases h
        · intro h
          cases h with
          | cons h => exact absurd hba (lt_irrefl _)
          | rel h => exact absurd hba (asymm h)
      · simp only [if_neg hba]
        have heq : a = b := le_antisymm (not_lt.mp hba) (not_lt.mp hab)
        subst heq
        exact (lexLt_iff as bs).trans (List.Lex.cons_iff).symm

theorem pyStrLe_iff (a b : String) : pyStrLe a b = true ↔ a ≤ b := by
  unfold pyStrLe
  rw [Bool.not_eq_true']
  rw [← not_lt]
  constructor
  · intro h hlt
    rw [String.lt_iff_toList_lt] at hlt
    have : lexLt b.toList a.toList = true := by
      rw [lexLt_iff]
      exact hlt
    rw [this] at h
    cases h
  · intro h
    by_contra hne
    rw [Bool.not_eq_false] at hne
    rw [lexLt_iff] at hne
    apply h
    rw [String.lt_iff_toList_lt]
    exact hne

theorem mem_insortS {x a : String} : ∀ {l : List String}, a ∈ insortS x l ↔ a = x ∨ a ∈ l
  | [] => by simp [insortS]
  | y :: ys => by
    unfold insortS
    by_cases h : pyStrLe x y
    · simp [h]
    · simp only [if_neg h, List.mem_cons, mem_insortS (l := ys)]
      tauto

theorem pairwise_insortS {x : String} :
    ∀ {l : List String}, l.Pairwise (· ≤ ·) → (insortS x l).Pairwise (· ≤ ·)
  | [], _ => by simp [insortS]
  | y :: ys, hp => by
    unfold insortS
    rcases List.pairwise_cons.mp hp with ⟨hy, hys⟩
    by_cases h : pyStrLe x y
    · have hxy : x ≤ y := (pyStrLe_iff _ _).mp h
      simp only [if_pos h]
      refine List.pairwise_cons.mpr ⟨?_, hp⟩
      intro z hz
      rcases List.mem_cons.mp hz with rfl | hz
      · exact hxy
      · exact le_trans hxy (hy z hz)
    · have hyx : y ≤ x := by
        rcases le_total x y with hxy | hyx
        · exact absurd ((pyStrLe_iff x y).mpr hxy) h
        · exact hyx
      simp only [if_neg h]
      refine List.pairwise_cons.mpr ⟨?_, pairwise_insortS hys⟩
      intro z hz
      rcases mem_insortS.mp hz with rfl | hz
      · exact hyx
      · exact hy z hz

theorem pairwise_pySorted : ∀ (l : List String), (pySorted l).Pairwise (· ≤ ·)
  | [] => by simp [pySorted]
  | x :: xs => by
    unfold pySorted
    exact pairwise_insortS (pairwise_pySorted xs)

theorem mem_pySorted {a : String} : ∀ {l : List String}, a ∈ pySorted l ↔ a ∈ l
  | [] => by simp [pySorted]
  | x :: xs => by
    unfold pySorted
    rw [mem_insortS, mem_pySorted (l := xs), List.mem_cons]

theorem getLast?_mem_self : ∀ {l : List String} {M : String}, l.getLast? = some M → M ∈ l := by
  intro l M h
  rcases List.mem_getLast?_eq_getLast h with ⟨hne, rfl⟩
  exact List.getLast_mem hne

theorem le_getLast?_of_pairwise :
    ∀ (l : List String), l.Pairwise (· ≤ ·) → ∀ (M : String), l.getLast? = some M →
      ∀ x ∈ l, x ≤ M
  | [], _, M, h => by simp at h
  | [y], _, M, h => by
    intro x hx
    simp only [List.getLast?_singleton, Option.some.injEq] at h
    simp only [List.mem_singleton] at hx
    rw [hx, h]
  | y :: z :: t, hp, M, h => by
    rw [List.getLast?_cons_cons] at h
    rcases List.pairwise_cons.mp hp with ⟨hy, hzt⟩
    intro x hx
    rcases List.mem_cons.mp hx with rfl | hx
    · exact hy M (getLast?_mem_self h)
    · exact le_getLast?_of_pairwise (z :: t) hzt M h x hx

/-- C7: with the target snapshot path already present, both acquisition
variants raise the planet-file-exists exception immediately: no transfer
event is emitted and nothing is written. -/
theorem claim7_acquisition_no_overwrite (exec : List String → Option String) (boto : Bool)
    (matchP : String → Bool) (keys : List String) (bucket url : Option String)
    (osmpath : String) (fs : FS) (h : fs.pathExists osmpath = true) :
    download_planet_http exec osmpath url fs =
      ([], Except.error (Err.exceptionMsg ("planet file exists: " ++ osmpath))) ∧
    download_planet_latest boto matchP keys bucket osmpath fs =
      ([], Except.error (Err.exceptionMsg ("planet file exists: " ++ osmpath))) := by
  constructor
  · unfold download_planet_http
    rw [h]
    simp
  · unfold download_planet_latest
    rw [h]
    simp

/-- Witness for C7 at a concrete filesystem that already holds the target. -/
theorem claim7_witness :
    FS.pathExists ⟨[("planet.osm.pbf", "x")], []⟩ "planet.osm.pbf" = true ∧
    download_planet_http (fun _ => some "") "planet.osm.pbf" none ⟨[("planet.osm.pbf", "x")], []⟩ =
      ([], Except.error (Err.exceptionMsg ("planet file exists: " ++ "planet.osm.pbf"))) ∧
    download_planet_latest true (fun _ => true) ["planet-220101.osm.pbf"] none "planet.osm.pbf"
        ⟨[("planet.osm.pbf", "x")], []⟩ =
      ([], Except.error (Err.exceptionMsg ("planet file exists: " ++ "planet.osm.pbf"))) := by
  refine ⟨by decide, ?_, ?_⟩
  · exact (claim7_acquisition_no_overwrite (fun _ => some "") true (fun _ => true)
      ["planet-220101.osm.pbf"] none none "planet.osm.pbf" ⟨[("planet.osm.pbf", "x")], []⟩
      (by decide)).1
  · exact (claim7_acquisition_no_overwrite (fun _ => some "") true (fun _ => true)
      ["planet-220101.osm.pbf"] none none "planet.osm.pbf" ⟨[("planet.osm.pbf", "x")], []⟩
      (by decide)).2

/-- C8: the direct timestamp-mode output is returned stripped when it does
not contain `"invalid"`; otherwise statistics mode is invoked and the
stripped text after the first colon of the first `"timestamp max"` line is
returned. -/
theorem claim8_get_timestamp (exec : List String → Option String) (osmpath direct : String)
    (hdirect : exec (timestampCmd osmpath) = some direct) :
    (pyContains direct "invalid" = false →
      (get_timestamp exec osmpath).2 = Except.ok (pyStrip direct)) ∧
    (∀ stats l ls, pyContains direct "invalid" = true →
      exec (statisticsCmd osmpath) = some stats →
      (pyLines stats).filter (fun i => pyStartsWith i "timestamp max") = l :: ls →
      (get_timestamp exec osmpath).2 = Except.ok (pyStrip (afterFirstColon l))) := by
  constructor
  · intro hni
    unfold get_timestamp
    simp [hdirect, hni]
  · intro stats l ls hinv hstats hfilter
    unfold get_timestamp
    simp [hdirect, hinv, hstats, hfilter, pyStrip_idem]

/-- Witness for C8, exercising both the direct branch and the fallback. -/
theorem claim8_witness :
    (get_timestamp (fun args =>
        if args = timestampCmd "p" then some " 2020-01-01T00:00:00Z\n" else none) "p").2 =
      Except.ok (pyStrip " 2020-01-01T00:00:00Z\n") ∧
    (get_timestamp (fun args =>
        if args = timestampCmd "q" then some "osmconvert: timestamp is invalid" else
        if args = statisticsCmd "q" then
          some "nodes: 5\ntimestamp min: a\ntimestamp max: 2021-02-03T00:00:00Z \nother: b"
        else none) "q").2 =
      Except.ok (pyStrip (afterFirstColon "timestamp max: 2021-02-03T00:00:00Z ")) := by
  constructor
  · exact (claim8_get_timestamp
      (fun args => if args = timestampCmd "p" then some " 2020-01-01T00:00:00Z\n" else none)
      "p" " 2020-01-01T00:00:00Z\n" (by decide)).1 (by decide)
  · exact (claim8_get_timestamp
      (fun args =>
        if args = timestampCmd "q" then some "osmconvert: timestamp is invalid" else
        if args = statisticsCmd "q" then
          some "nodes: 5\ntimestamp min: a\ntimestamp max: 2021-02-03T00:00:00Z \nother: b"
        else none)
      "q" "osmconvert: timestamp is invalid" (by decide)).2
      "nodes: 5\ntimestamp min: a\ntimestamp max: 2021-02-03T00:00:00Z \nother: b"
      "timestamp max: 2021-02-03T00:00:00Z " [] (by decide) (by decide) (by decide)

/-- Any invalid bbox anywhere in the region list aborts the argument-vector
construction of the tee variant with the validation error. -/
theorem osmosisBboxArgs_invalid (fmt : ℚ → String) (outpath : String) :
    ∀ (bboxes : List (String × Bbox)), (∃ nb ∈ bboxes, validate_bbox nb.2 = false) →
      osmosisBboxArgs fmt outpath bboxes = Except.error Err.invalidBbox
  | [], h => by simp at h
  | (name, b) :: rest, h => by
    unfold osmosisBboxArgs
    by_cases hv : validate_bbox b = true
    · have hrest : ∃ nb ∈ rest, validate_bbox nb.2 = false := by
        rcases h with ⟨nb, hmem, hnb⟩
        rcases List.mem_cons.mp hmem with heq | hmem
        · rw [heq] at hnb
          rw [hv] at hnb
          cases hnb
        · exact ⟨nb, hmem, hnb⟩
      rw [osmosisBboxArgs_invalid fmt outpath rest hrest]
      simp [hv]
    · simp [hv]

/-- C9: in the tee-multiplexed variant every bbox is validated while the
single argument vector is being built, so one invalid bbox anywhere in the
region set makes `extract_bboxes` raise with no external invocation at all
(the command slot is untouched and the event trace is empty). -/
theorem claim9_osmosis_validates_before_invoking (exec : List String → Option String)
    (fmt : ℚ → String) (osmpath outpath : String) (workers : Nat)
    (bboxes : List (String × Bbox)) (st : CommandSlot)
    (h : ∃ nb ∈ bboxes, validate_bbox nb.2 = false) :
    extract_bboxes_osmosis exec fmt osmpath outpath workers bboxes st =
      (st, [], Except.error Err.invalidBbox) := by
  unfold extract_bboxes_osmosis
  rw [osmosisBboxArgs_invalid fmt outpath bboxes h]

/-- Witness for C9: a two-region set whose second bbox is inverted. -/
theorem claim9_witness :
    (∃ nb ∈ [("a", Bbox.mk 0 0 1 1), ("b", Bbox.mk 5 5 2 6)],
        validate_bbox nb.2 = false) ∧
    extract_bboxes_osmosis (fun _ => some "") (fun q => toString q) "planet.osm.pbf" "."
        2 [("a", Bbox.mk 0 0 1 1), ("b", Bbox.mk 5 5 2 6)] ⟨false, []⟩ =
      (⟨false, []⟩, [], Except.error Err.invalidBbox) :=
  ⟨by decide,
    claim9_osmosis_validates_before_invoking (fun _ => some "") (fun q => toString q)
      "planet.osm.pbf" "." 2 [("a", Bbox.mk 0 0 1 1), ("b", Bbox.mk 5 5 2 6)] ⟨false, []⟩
      (by decide)⟩

/-- C5: with the target absent and the client present, the object-store
variant downloads exactly one key, namely the last element of the sorted
matching keys, and that key is a lexicographic maximum of the matching
keys. -/
theorem claim5_s3_selects_lexicographic_max (matchP : String → Bool) (keys : List String)
    (bucket : Option String) (osmpath : String) (fs : FS) (K : String)
    (hex : fs.pathExists osmpath = false)
    (hK : (pySorted (keys.filter matchP)).getLast? = some K) :
    download_planet_latest true matchP keys bucket osmpath fs =
      ([Event.s3download (bucket.getD "osm-pds") K], Except.ok ()) ∧
    K ∈ keys.filter matchP ∧ ∀ k ∈ keys.filter matchP, k ≤ K := by
  refine ⟨?_, ?_, ?_⟩
  · unfold download_planet_latest
    rw [hex]
    simp [hK]
  · exact mem_pySorted.mp (getLast?_mem_self hK)
  · intro k hk
    exact le_getLast?_of_pairwise _ (pairwise_pySorted _) K hK k (mem_pySorted.mpr hk)

/-- Witness for C5 on the spec's own example pair of keys: the later
(lexicographically larger) key is the one downloaded. -/
theorem claim5_witness :
    download_planet_latest true (fun _ => true)
        ["planet-220101.osm.pbf", "planet-220201.osm.pbf"] none "planet.osm.pbf" ⟨[], []⟩ =
      ([Event.s3download "osm-pds" "planet-220201.osm.pbf"], Except.ok ()) ∧
    ∀ k ∈ ["planet-220101.osm.pbf", "planet-220201.osm.pbf"].filter (fun _ => true),
      k ≤ "planet-220201.osm.pbf" := by
  have h := claim5_s3_selects_lexicographic_max (fun _ => true)
    ["planet-220101.osm.pbf", "planet-220201.osm.pbf"] none "planet.osm.pbf" ⟨[], []⟩
    "planet-220201.osm.pbf" (by decide) (by decide)
  exact ⟨h.1, h.2.2⟩

/-- C6 counterexample: with no matching key the code reaches `objs[-1]` on
the empty selection and dies with `IndexError` — there is no dedicated
no-matching-object failure raised before indexing, contradicting the
claim that the empty selection is never indexed. -/
theorem claim6_counterexample :
    download_planet_latest true (fun _ => false) ["planet-220101.osm.pbf"] none
        "planet.osm.pbf" ⟨[], []⟩ = ([], Except.error Err.indexError) := rfl

/-- C6 amended: with the client present, the target absent and no key
matching the filter, the operation fails with the `IndexError` produced by
indexing the empty selection, and downloads nothing (no event). -/
theorem claim6_amended_empty_match_index_error (matchP : String → Bool) (keys : List String)
    (bucket : Option String) (osmpath : String) (fs : FS)
    (hex : fs.pathExists osmpath = false)
    (hempty : keys.filter matchP = []) :
    download_planet_latest true matchP keys bucket osmpath fs =
      ([], Except.error Err.indexError) := by
  unfold download_planet_latest
  rw [hex, hempty]
  simp [pySorted]

/-- Witness for the amended C6. -/
theorem claim6_witness :
    download_planet_latest true (fun k => pyStartsWith k "planet") ["region-1.osm.pbf"] none
        "out.osm.pbf" ⟨[], []⟩ = ([], Except.error Err.indexError) :=
  claim6_amended_empty_match_index_error (fun k => pyStartsWith k "planet")
    ["region-1.osm.pbf"] none "out.osm.pbf" ⟨[], []⟩ (by decide) (by decide)

/-- With the recording lambda installed in the command slot, the
osmconvert extraction loop spawns nothing: it appends one argument vector
per (valid) region to the recorded log, in order, and succeeds. -/
theorem extract_osmconvert_recording (exec : List String → Option String) (fmt : ℚ → String)
    (osmpath outpath : String) :
    ∀ (bboxes : List (String × Bbox)) (st : CommandSlot), st.recording = true →
      (∀ nb ∈ bboxes, validate_bbox nb.2 = true) →
      extract_bboxes_osmconvert exec fmt osmpath outpath bboxes st =
        (⟨true, st.recorded ++
            bboxes.map (fun nb => osmconvertBboxCmd fmt osmpath outpath nb.1 nb.2)⟩,
          [], Except.ok ())
  | [], st, hrec, _ => by
    unfold extract_bboxes_osmconvert
    cases st with
    | mk r rec =>
      simp only at hrec
      subst hrec
      simp
  | (name, b) :: rest, st, hrec, hv => by
    have hvb : validate_bbox b = true := hv (name, b) (List.mem_cons_self _ _)
    have hvrest : ∀ nb ∈ rest, validate_bbox nb.2 = true := by
      intro nb hnb
      exact hv nb (List.mem_cons_of_mem _ hnb)
    unfold extract_bboxes_osmconvert commandStep
    rw [hvb, hrec]
    simp only [if_pos rfl, ite_true]
    rw [extract_osmconvert_recording exec fmt osmpath outpath rest
      ⟨true, st.recorded ++ [osmconvertBboxCmd fmt osmpath outpath name b]⟩
      rfl hvrest]
    simp [List.append_assoc]

/-- C10: `extract_commands` spawns no subprocess (empty event trace) and
returns exactly the per-region argument vectors; it leaves the recording
lambda installed in the instance's command slot, so a subsequent
`extract_bboxes` call on the same instance also spawns nothing and merely
appends its argument vectors to the recorded log. -/
theorem claim10_extract_commands_hijacks_command_slot (exec : List String → Option String)
    (fmt : ℚ → String) (osmpath outpath : String)
    (bboxes bboxes2 : List (String × Bbox)) (st : CommandSlot)
    (h1 : ∀ nb ∈ bboxes, validate_bbox nb.2 = true)
    (h2 : ∀ nb ∈ bboxes2, validate_bbox nb.2 = true) :
    extract_commands_osmconvert exec fmt osmpath outpath bboxes st =
      (⟨true, bboxes.map (fun nb => osmconvertBboxCmd fmt osmpath outpath nb.1 nb.2)⟩,
        [], Except.ok (bboxes.map (fun nb => osmconvertBboxCmd fmt osmpath outpath nb.1 nb.2))) ∧
    extract_bboxes_osmconvert exec fmt osmpath outpath bboxes2
        ⟨true, bboxes.map (fun nb => osmconvertBboxCmd fmt osmpath outpath nb.1 nb.2)⟩ =
      (⟨true, bboxes.map (fun nb => osmconvertBboxCmd fmt osmpath outpath nb.1 nb.2) ++
          bboxes2.map (fun nb => osmconvertBboxCmd fmt osmpath outpath nb.1 nb.2)⟩,
        [], Except.ok ()) := by
  constructor
  · unfold extract_commands_osmconvert
    rw [extract_osmconvert_recording exec fmt osmpath outpath bboxes ⟨true, []⟩ rfl h1]
    simp
  · rw [extract_osmconvert_recording exec fmt osmpath outpath bboxes2
      ⟨true, bboxes.map (fun nb => osmconvertBboxCmd fmt osmpath outpath nb.1 nb.2)⟩ rfl h2]

/-- Witness for C10 with two concrete regions then a later single-region
call on the same instance. -/
theorem claim10_witness :
    extract_commands_osmconvert (fun _ => some "") (fun q => toString q) "planet.osm.pbf" "out"
        [("a", Bbox.mk 0 0 1 1)] ⟨false, []⟩ =
      (⟨true, [osmconvertBboxCmd (fun q => toString q) "planet.osm.pbf" "out" "a" (Bbox.mk 0 0 1 1)]⟩,
        [], Except.ok [osmconvertBboxCmd (fun q => toString q) "planet.osm.pbf" "out" "a" (Bbox.mk 0 0 1 1)]) ∧
    extract_bboxes_osmconvert (fun _ => some "") (fun q => toString q) "planet.osm.pbf" "out"
        [("b", Bbox.mk 2 2 3 3)]
        ⟨true, [osmconvertBboxCmd (fun q => toString q) "planet.osm.pbf" "out" "a" (Bbox.mk 0 0 1 1)]⟩ =
      (⟨true, [osmconvertBboxCmd (fun q => toString q) "planet.osm.pbf" "out" "a" (Bbox.mk 0 0 1 1),
               osmconvertBboxCmd (fun q => toString q) "planet.osm.pbf" "out" "b" (Bbox.mk 2 2 3 3)]⟩,
        [], Except.ok ()) := by
  have h := claim10_extract_commands_hijacks_command_slot (fun _ => some "")
    (fun q => toString q) "planet.osm.pbf" "out" [("a", Bbox.mk 0 0 1 1)]
    [("b", Bbox.mk 2 2 3 3)] ⟨false, []⟩ (by decide) (by decide)
  exact h

/-- C3 counterexample: in the sequential variant a non-zero exit for the
first region's invocation aborts `extract_bboxes` at once — the second
region's invocation never appears in the event trace, so a failure in
region `i` does prevent the attempt for region `i+1`. -/
theorem claim3_counterexample :
    Event.run (osmconvertBboxCmd (fun q => toString q) "planet.osm.pbf" "."
        "b" (Bbox.mk 2 2 3 3)) ∉
      (extract_bboxes_osmconvert
        (fun args =>
          if args = osmconvertBboxCmd (fun q => toString q) "planet.osm.pbf" "."
              "a" (Bbox.mk 0 0 1 1) then none else some "")
        (fun q => toString q) "planet.osm.pbf" "."
        [("a", Bbox.mk 0 0 1 1), ("b", Bbox.mk 2 2 3 3)] ⟨false, []⟩).2.1 ∧
    (extract_bboxes_osmconvert
        (fun args =>
          if args = osmconvertBboxCmd (fun q => toString q) "planet.osm.pbf" "."
              "a" (Bbox.mk 0 0 1 1) then none else some "")
        (fun q => toString q) "planet.osm.pbf" "."
        [("a", Bbox.mk 0 0 1 1), ("b", Bbox.mk 2 2 3 3)] ⟨false, []⟩).2.2 =
      Except.error (Err.calledProcessError (osmconvertBboxCmd (fun q => toString q)
        "planet.osm.pbf" "." "a" (Bbox.mk 0 0 1 1))) := by
  constructor
  · decide
  · rfl

/-- C3 amended: the regions before the first failing invocation are each
attempted (one event per region, in order) and the failing region's
invocation is attempted and recorded; `extract_bboxes` then raises
`CalledProcessError`, so the regions after the failure are never
attempted.  Partial success is therefore limited to the prefix strictly
before the failing region. -/
theorem claim3_amended_failure_aborts_remaining_regions (exec : List String → Option String)
    (fmt : ℚ → String) (osmpath outpath name : String) (b : Bbox) :
    ∀ (pre : List (String × Bbox)) (post : List (String × Bbox)) (st : CommandSlot),
      st.recording = false →
      (∀ nb ∈ pre, validate_bbox nb.2 = true) →
      (∀ nb ∈ pre, (exec (osmconvertBboxCmd fmt osmpath outpath nb.1 nb.2)).isSome = true) →
      validate_bbox b = true →
      exec (osmconvertBboxCmd fmt osmpath outpath name b) = none →
      extract_bboxes_osmconvert exec fmt osmpath outpath (pre ++ (name, b) :: post) st =
        (st, (pre.map (fun nb => Event.run (osmconvertBboxCmd fmt osmpath outpath nb.1 nb.2))) ++
          [Event.run (osmconvertBboxCmd fmt osmpath outpath name b)],
          Except.error (Err.calledProcessError (osmconvertBboxCmd fmt osmpath outpath name b)))
  | [], post, st, hrec, _, _, hvb, hfail => by
    rw [List.nil_append]
    unfold extract_bboxes_osmconvert commandStep
    simp [hvb, hrec, hfail]
  | nb0 :: pre', post, st, hrec, hvpre, hpre, hvb, hfail => by
    have hv0 : validate_bbox nb0.2 = true := hvpre nb0 (List.mem_cons_self _ _)
    have hs0 : (exec (osmconvertBboxCmd fmt osmpath outpath nb0.1 nb0.2)).isSome = true :=
      hpre nb0 (List.mem_cons_self _ _)
    obtain ⟨out0, hout0⟩ := Option.isSome_iff_exists.mp hs0
    have hvpre' : ∀ nb ∈ pre', validate_bbox nb.2 = true := by
      intro nb hnb
      exact hvpre nb (List.mem_cons_of_mem _ hnb)
    have hpre' : ∀ nb ∈ pre',
        (exec (osmconvertBboxCmd fmt osmpath outpath nb.1 nb.2)).isSome = true := by
      intro nb hnb
      exact hpre nb (List.mem_cons_of_mem _ hnb)
    have hIH := claim3_amended_failure_aborts_remaining_regions exec fmt osmpath outpath
      name b pre' post st hrec hvpre' hpre' hvb hfail
    rw [List.cons_append]
    unfold extract_bboxes_osmconvert commandStep
    simp [hv0, hrec, hout0, hIH]

/-- Witness for the amended C3: one succeeding region, then the failing
one, then a trailing region that is never attempted. -/
theorem claim3_witness :
    extract_bboxes_osmconvert
        (fun args =>
          if args = osmconvertBboxCmd (fun q => toString q) "planet.osm.pbf" "."
              "bad" (Bbox.mk 4 4 5 5) then none else some "")
        (fun q => toString q) "planet.osm.pbf" "."
        [("a", Bbox.mk 0 0 1 1), ("bad", Bbox.mk 4 4 5 5), ("c", Bbox.mk 6 6 7 7)]
        ⟨false, []⟩ =
      (⟨false, []⟩,
        [Event.run (osmconvertBboxCmd (fun q => toString q) "planet.osm.pbf" "."
            "a" (Bbox.mk 0 0 1 1)),
         Event.run (osmconvertBboxCmd (fun q => toString q) "planet.osm.pbf" "."
            "bad" (Bbox.mk 4 4 5 5))],
        Except.error (Err.calledProcessError (osmconvertBboxCmd (fun q => toString q)
          "planet.osm.pbf" "." "bad" (Bbox.mk 4 4 5 5)))) := by
  have h := claim3_amended_failure_aborts_remaining_regions
    (fun args =>
      if args = osmconvertBboxCmd (fun q => toString q) "planet.osm.pbf" "."
          "bad" (Bbox.mk 4 4 5 5) then none else some "")
    (fun q => toString q) "planet.osm.pbf" "." "bad" (Bbox.mk 4 4 5 5)
    [("a", Bbox.mk 0 0 1 1)] [("c", Bbox.mk 6 6 7 7)] ⟨false, []⟩
    rfl (by decide) (by decide) (by decide) (by decide)
  simpa using h

/-- C2 counterexample: against a workdir whose `configuration.txt` already
exists, two bootstrap runs issue the initializer zero times, not exactly
once — with a present artifact the first run is already a no-op (it
returns the filesystem unchanged, so the second run sees the same state). -/
theorem claim2_counterexample :
    bootstrapWorkdir (fun _ => some "") "wd" "https://example.org/replication/minute"
        ⟨[("wd/configuration.txt", "x")], []⟩ =
      ([], Except.ok ⟨[("wd/configuration.txt", "x")], []⟩) ∧
    ((bootstrapWorkdir (fun _ => some "") "wd" "https://example.org/replication/minute"
        ⟨[("wd/configuration.txt", "x")], []⟩).1 ++
     (bootstrapWorkdir (fun _ => some "") "wd" "https://example.org/replication/minute"
        ⟨[("wd/configuration.txt", "x")], []⟩).1).countP
       (fun e => e == Event.run (initCmd "wd")) ≠ 1 := by
  constructor
  · rfl
  · decide

/-- C2 amended: once `configuration.txt` is present the bootstrap phase is
a no-op that regenerates nothing; when it is absent (and the workdir path
is not an existing non-directory) a successful run issues the initializer
once, writes the configuration artifact, and a second run against the
resulting state issues nothing and changes nothing — so a successful
bootstrap followed by a re-run issues the initializer exactly once. -/
theorem claim2_amended_bootstrap_idempotent (exec : List String → Option String)
    (workdir curl : String) (fs : FS) (s : String) :
    (fs.pathExists (pyJoin workdir "configuration.txt") = true →
      bootstrapWorkdir exec workdir curl fs = ([], Except.ok fs)) ∧
    (fs.pathExists (pyJoin workdir "configuration.txt") = false →
      (fs.pathExists workdir && !(fs.isDir workdir)) = false →
      exec (initCmd workdir) = some s →
      bootstrapWorkdir exec workdir curl fs =
        ([Event.run (initCmd workdir)],
          Except.ok ((fs.makedirs workdir).writeFile (pyJoin workdir "configuration.txt")
            (configurationBody curl))) ∧
      bootstrapWorkdir exec workdir curl
          ((fs.makedirs workdir).writeFile (pyJoin workdir "configuration.txt")
            (configurationBody curl)) =
        ([], Except.ok ((fs.makedirs workdir).writeFile (pyJoin workdir "configuration.txt")
          (configurationBody curl)))) := by
  constructor
  · intro h
    unfold bootstrapWorkdir
    simp [h]
  · intro hcfg hwd hexec
    constructor
    · unfold bootstrapWorkdir
      simp [hcfg, hwd, hexec]
    · have hpresent : ((fs.makedirs workdir).writeFile (pyJoin workdir "configuration.txt")
          (configurationBody curl)).pathExists (pyJoin workdir "configuration.txt") = true := by
        unfold FS.pathExists FS.fileExists FS.readFile FS.writeFile
        simp [List.lookup]
      unfold bootstrapWorkdir
      simp [hpresent]

/-- Witness for the amended C2: a fresh workdir is bootstrapped once, then
re-running against the produced filesystem is a no-op. -/
theorem claim2_witness :
    bootstrapWorkdir (fun _ => some "") "wd" "https://example.org/replication/minute"
        ⟨[], []⟩ =
      ([Event.run (initCmd "wd")],
        Except.ok ((FS.makedirs ⟨[], []⟩ "wd").writeFile (pyJoin "wd" "configuration.txt")
          (configurationBody "https://example.org/replication/minute"))) ∧
    bootstrapWorkdir (fun _ => some "") "wd" "https://example.org/replication/minute"
        ((FS.makedirs ⟨[], []⟩ "wd").writeFile (pyJoin "wd" "configuration.txt")
          (configurationBody "https://example.org/replication/minute")) =
      ([], Except.ok ((FS.makedirs ⟨[], []⟩ "wd").writeFile (pyJoin "wd" "configuration.txt")
        (configurationBody "https://example.org/replication/minute"))) :=
  (claim2_amended_bootstrap_idempotent (fun _ => some "") "wd"
    "https://example.org/replication/minute" ⟨[], []⟩ "").2 (by decide) (by decide) rfl

/-- The only error the manifest-building loop can raise is the
unknown-geometry exception. -/
theorem buildExtracts_error :
    ∀ (l : List (String × Geometry)) (e : Err), buildExtracts l = Except.error e →
      e = Err.exceptionMsg "unknown geometry type for extract"
  | [], e, h => by simp [buildExtracts] at h
  | (name, g) :: rest, e, h => by
    unfold buildExtracts at h
    cases hg : manifestGeomOf g with
    | error e' =>
      rw [hg] at h
      simp only [Except.error.injEq] at h
      cases g with
      | lineString env => simp [manifestGeomOf] at hg
      | polygon c => simp [manifestGeomOf] at hg
      | multiPolygon c => simp [manifestGeomOf] at hg
      | other gt =>
        simp only [manifestGeomOf, Except.error.injEq] at hg
        rw [← h, ← hg]
    | ok mg =>
      rw [hg] at h
      cases hr : buildExtracts rest with
      | error e' =>
        rw [hr] at h
        simp only [Except.error.injEq] at h
        exact h ▸ buildExtracts_error rest e' hr
      | ok t =>
        rw [hr] at h
        simp at h

/-- Looking up a key in an association list from which every entry with
that key has been filtered out yields nothing. -/
theorem lookup_filter_ne (p : String) (files : List (String × String)) :
    (files.filter (fun kv => kv.1 != p)).lookup p = none := by
  induction files with
  | nil => rfl
  | cons kv rest ih =>
    obtain ⟨k, v⟩ := kv
    by_cases hk : k = p
    · subst hk
      simpa using ih
    · have hb : (k != p) = true := bne_iff_ne.mpr hk
      have hpk : (p == k) = false := beq_eq_false_iff_ne.mpr (Ne.symm hk)
      simp only [List.filter_cons, hb, if_true, List.lookup, hpk]
      exact ih

/-- After `os.unlink`, the unlinked path no longer exists as a file. -/
theorem fileExists_removeFile (fs : FS) (p : String) :
    (fs.removeFile p).fileExists p = false := by
  unfold FS.removeFile FS.fileExists FS.readFile
  simp [lookup_filter_ne]

/-- C4 counterexample: when the osmium invocation fails, the temporary
manifest file is still on disk after `extract_bboxes` raises — the
`os.unlink` is skipped, so deletion does not happen on every exit path. -/
theorem claim4_counterexample :
    ((extract_bboxes_osmium (fun _ => none) "/tmp/manifest" "planet.osm.pbf" "."
        "complete_ways" [("a", Geometry.lineString (Bbox.mk 0 0 1 1))]
        ⟨[], []⟩).1.fileExists "/tmp/manifest") = true ∧
    (extract_bboxes_osmium (fun _ => none) "/tmp/manifest" "planet.osm.pbf" "."
        "complete_ways" [("a", Geometry.lineString (Bbox.mk 0 0 1 1))]
        ⟨[], []⟩).2.2 =
      Except.error (Err.calledProcessError
        ["osmium", "extract", "-s", "complete_ways", "-c", "/tmp/manifest", "planet.osm.pbf"]) := by
  constructor
  · decide
  · rfl

/-- C4 amended: the temporary manifest is deleted only on the success
path.  When the external tool succeeds the file is gone afterwards; when
it exits non-zero, `extract_bboxes` raises `CalledProcessError` with the
manifest still present on disk. -/
theorem claim4_amended_manifest_cleanup_only_on_success
    (exec : List String → Option String) (tmpPath osmpath outpath strategy : String)
    (bboxes : List (String × Geometry)) (fs : FS) :
    ((extract_bboxes_osmium exec tmpPath osmpath outpath strategy bboxes fs).2.2 =
        Except.ok () →
      ((extract_bboxes_osmium exec tmpPath osmpath outpath strategy bboxes fs).1.fileExists
        tmpPath) = false) ∧
    (∀ args, (extract_bboxes_osmium exec tmpPath osmpath outpath strategy bboxes fs).2.2 =
        Except.error (Err.calledProcessError args) →
      ((extract_bboxes_osmium exec tmpPath osmpath outpath strategy bboxes fs).1.fileExists
        tmpPath) = true) := by
  unfold extract_bboxes_osmium
  cases hb : buildExtracts bboxes with
  | error e =>
    have he := buildExtracts_error bboxes e hb
    subst he
    refine ⟨?_, ?_⟩
    · intro h
      simp at h
    · intro args h
      simp at h
  | ok extracts =>
    cases hx : exec ["osmium", "extract", "-s", strategy, "-c", tmpPath, osmpath] with
    | none =>
      refine ⟨?_, ?_⟩
      · intro h
        simp only [hx] at h
        exact absurd h (by simp)
      · intro args _
        simp only [hx]
        unfold FS.fileExists FS.readFile FS.writeFile
        simp [List.lookup]
    | some out =>
      refine ⟨?_, ?_⟩
      · intro _
        simp only [hx]
        exact fileExists_removeFile _ tmpPath
      · intro args h
        simp only [hx] at h
        exact absurd h (by simp)

/-- Witness for the amended C4: on a successful run the manifest is gone. -/
theorem claim4_witness :
    ((extract_bboxes_osmium (fun _ => some "") "/tmp/manifest" "planet.osm.pbf" "."
        "complete_ways" [("a", Geometry.lineString (Bbox.mk 0 0 1 1))]
        ⟨[], []⟩).1.fileExists "/tmp/manifest") = false :=
  (claim4_amended_manifest_cleanup_only_on_success (fun _ => some "") "/tmp/manifest"
    "planet.osm.pbf" "." "complete_ways" [("a", Geometry.lineString (Bbox.mk 0 0 1 1))]
    ⟨[], []⟩).1 rfl

/-- Joining different trailing names onto the same directory gives
different paths. -/
theorem pyJoin_ne_of_ne (w a b : String) (h : a ≠ b) : pyJoin w a ≠ pyJoin w b := by
  intro heq
  apply h
  have hd := congrArg String.data heq
  simp only [pyJoin, String.data_append] at hd
  have := List.append_cancel_left hd
  exact String.toList_inj.mp this

/-- A joined path is strictly longer than the directory it starts from. -/
theorem pyJoin_ne_base (w a : String) : pyJoin w a ≠ w := by
  intro heq
  have hd := congrArg (fun s => s.data.length) heq
  simp only [pyJoin, String.data_append, List.length_append, List.length_singleton] at hd
  omega

/-- The state artifact is still absent after the workdir bootstrap writes
the configuration artifact and creates the directory. -/
theorem statepath_absent_after_bootstrap (workdir curl : String) (fs : FS)
    (hwd : fs.pathExists workdir = false)
    (hst : fs.pathExists (pyJoin workdir "state.txt") = false) :
    ((fs.makedirs workdir).writeFile (pyJoin workdir "configuration.txt")
        (configurationBody curl)).pathExists (pyJoin workdir "state.txt") = false := by
  have hne1 : ((pyJoin workdir "state.txt") == (pyJoin workdir "configuration.txt")) = false :=
    beq_eq_false_iff_ne.mpr (pyJoin_ne_of_ne workdir "state.txt" "configuration.txt"
      (by decide))
  have hne2 : ((pyJoin workdir "state.txt") == workdir) = false :=
    beq_eq_false_iff_ne.mpr (pyJoin_ne_base workdir "state.txt")
  have hfs : fs.fileExists (pyJoin workdir "state.txt") = false := by
    unfold FS.pathExists at hst
    exact (Bool.or_eq_false_iff.mp hst).1
  have hds : fs.isDir (pyJoin workdir "state.txt") = false := by
    unfold FS.pathExists at hst
    exact (Bool.or_eq_false_iff.mp hst).2
  unfold FS.makedirs
  rw [hwd]
  unfold FS.pathExists FS.fileExists FS.readFile FS.writeFile FS.isDir
  unfold FS.fileExists FS.readFile at hfs
  unfold FS.isDir at hds
  simp [List.lookup, hne1, hne2, hfs, hds]
  exact ⟨pyJoin_ne_base workdir "state.txt", by simpa using hds⟩

/-- C1 counterexample: run the interval updater in the claim's scenario
(absent workdir, grain "minute", every external call succeeding, direct
timestamp valid).  The invocation trace is not the claimed four-element
sequence [init, sequence-lookup, fetch, apply] — the timestamp-resolution
invocation (`osmconvert --out-timestamp`) also occurs — and the
configuration body is not literally the two lines `baseUrl=...` and
`maxInterval=0` (the triple-quoted literal adds a leading blank line,
indentation and a trailing indent line). -/
theorem claim1_counterexample :
    (update_planet
        (fun args => if args = timestampCmd "p.osm.pbf" then some "2020-01-01T00:00:00Z"
          else some "")
        (fun _ => some "s") "p.osm.pbf" "wd" "o.osm.pbf" "minute" none
        ⟨[("p.osm.pbf", "")], []⟩).1 ≠
      [Event.run (initCmd "wd"), Event.httpGet (sequenceUrl "2020-01-01T00:00:00Z"),
       Event.run (getChangesetCmd "wd"),
       Event.run (applyChangesetCmd "wd" "p.osm.pbf" "o.osm.pbf")] ∧
    pyLines (configurationBody (default_changeset_url "minute")) ≠
      ["baseUrl=https://planet.openstreetmap.org/replication/minute", "maxInterval=0"] := by
  constructor
  · decide
  · decide

/-- C1 amended: in the claim's scenario the updater issues exactly five
external interactions, in order: the replication-interval initializer, the
timestamp extraction (`osmconvert --out-timestamp`), the sequence-lookup
HTTP call, the changeset fetch and the changeset apply; afterwards
`configuration.txt` holds the triple-quoted body whose stripped non-blank
lines are exactly `baseUrl=https://planet.openstreetmap.org/replication/minute`
and `maxInterval=0`. -/
theorem claim1_amended_update_sequence (exec : List String → Option String)
    (http : String → Option String) (osmpath workdir outpath : String) (fs : FS)
    (dts s0 st s2 s3 : String)
    (hosm : fs.pathExists osmpath = true)
    (hcfg : fs.pathExists (pyJoin workdir "configuration.txt") = false)
    (hwd : fs.pathExists workdir = false)
    (hst : fs.pathExists (pyJoin workdir "state.txt") = false)
    (hinit : exec (initCmd workdir) = some s0)
    (hts : exec (timestampCmd osmpath) = some dts)
    (hni : pyContains dts "invalid" = false)
    (hhttp : http (sequenceUrl (pyStrip dts)) = some st)
    (hget : exec (getChangesetCmd workdir) = some s2)
    (happly : exec (applyChangesetCmd workdir osmpath outpath) = some s3) :
    update_planet exec http osmpath workdir outpath "minute" none fs =
      ([Event.run (initCmd workdir), Event.run (timestampCmd osmpath),
        Event.httpGet (sequenceUrl (pyStrip dts)), Event.run (getChangesetCmd workdir),
        Event.run (applyChangesetCmd workdir osmpath outpath)],
        Except.ok (((fs.makedirs workdir).writeFile (pyJoin workdir "configuration.txt")
            (configurationBody (default_changeset_url "minute"))).writeFile
          (pyJoin workdir "state.txt") st)) ∧
    (((fs.makedirs workdir).writeFile (pyJoin workdir "configuration.txt")
        (configurationBody (default_changeset_url "minute"))).writeFile
      (pyJoin workdir "state.txt") st).readFile (pyJoin workdir "configuration.txt") =
      some (configurationBody (default_changeset_url "minute")) ∧
    trimmedNonBlankLines (configurationBody (default_changeset_url "minute")) =
      ["baseUrl=https://planet.openstreetmap.org/replication/minute", "maxInterval=0"] := by
  have h1 := statepath_absent_after_bootstrap workdir (default_changeset_url "minute") fs hwd hst
  refine ⟨?_, ?_, ?_⟩
  · unfold update_planet bootstrapWorkdir bootstrapState get_timestamp
    simp [hosm, hcfg, hwd, hinit, h1, hts, hni, hhttp, hget, happly]
  · have hne : pyJoin workdir "configuration.txt" ≠ pyJoin workdir "state.txt" :=
      pyJoin_ne_of_ne workdir "configuration.txt" "state.txt" (by decide)
    unfold FS.writeFile FS.readFile
    simp [List.lookup, beq_eq_false_iff_ne.mpr hne]
  · decide

/-- Witness for the amended C1 at a concrete scenario. -/
theorem claim1_witness :
    update_planet
        (fun args => if args = timestampCmd "p.osm.pbf" then some "2020-01-01T00:00:00Z"
          else some "")
        (fun _ => some "s") "p.osm.pbf" "wd" "o.osm.pbf" "minute" none
        ⟨[("p.osm.pbf", "")], []⟩ =
      ([Event.run (initCmd "wd"), Event.run (timestampCmd "p.osm.pbf"),
        Event.httpGet (sequenceUrl (pyStrip "2020-01-01T00:00:00Z")),
        Event.run (getChangesetCmd "wd"),
        Event.run (applyChangesetCmd "wd" "p.osm.pbf" "o.osm.pbf")],
        Except.ok (((FS.makedirs ⟨[("p.osm.pbf", "")], []⟩ "wd").writeFile
            (pyJoin "wd" "configuration.txt")
            (configurationBody (default_changeset_url "minute"))).writeFile
          (pyJoin "wd" "state.txt") "s")) ∧
    trimmedNonBlankLines (configurationBody (default_changeset_url "minute")) =
      ["baseUrl=https://planet.openstreetmap.org/replication/minute", "maxInterval=0"] := by
  have h := claim1_amended_update_sequence
    (fun args => if args = timestampCmd "p.osm.pbf" then some "2020-01-01T00:00:00Z"
      else some "")
    (fun _ => some "s") "p.osm.pbf" "wd" "o.osm.pbf" ⟨[("p.osm.pbf", "")], []⟩
    "2020-01-01T00:00:00Z" "" "s" "" ""
    (by decide) (by decide) (by decide) (by decide)
    (by decide) (by decide) (by decide) rfl (by decide) (by decide)
  exact ⟨h.1, h.2.2⟩

end Planetutils
